import Mathlib

/-!
Verification of the Hemmelig secret-lifecycle engine against its
natural-language specification.

Shallow embedding of the code under `server/bootstrap.js`,
`server/controllers/password.js` and the `/api/encrypt` controller, plus
the Prisma `Secret` schema.  Timestamps are epoch milliseconds as `Nat`
(JavaScript `Date.now()`).  External collaborators (the `encrypt` and
`generateKey` helpers from `shared/helpers/crypto.js`, the base64 key
encoding, the `generate-password` library) are passed in as explicit
parameters, matching their `import` boundaries in the source.
-/

namespace Hemmelig

/-! ## Data model: the stored `Secret` row (prisma migration, CREATE TABLE "Secret") -/

/-- A stored `Secret` row, following the Prisma schema
(`CREATE TABLE "Secret"`): `data`, optional `title`, `maxViews`
(DEFAULT 1), `preventBurn` (DEFAULT false), `expiresAt`.  Fields not
touched by the claims (`password`, `allowed_ip`, `isPublic`,
`ipAddress`, `user_id`, `createdAt`) are omitted from the embedding. -/
structure Secret where
  id : Nat
  data : String
  title : Option String
  maxViews : Nat
  preventBurn : Bool
  expiresAt : Nat
  deriving Repr, DecidableEq

/-! ## ExpirySweeper: `dbCleaner` in `server/bootstrap.js` -/

/-- `prisma.secret.deleteMany({ where: { expiresAt: { lte: new Date() } } })`:
the rows remaining in the store are exactly those whose `expiresAt` is
not `lte now`. -/
def secretDeleteManyExpired (store : List Secret) (now : Nat) : List Secret :=
  store.filter (fun s => ¬ s.expiresAt ≤ now)

/-- Outcome of the store call issued by a sweep tick: either it succeeds,
or the store raises an error carrying a message. -/
inductive StoreOutcome where
  | ok : StoreOutcome
  | storeError : String → StoreOutcome
  deriving Repr, DecidableEq

/-- Result of one `dbCleaner` tick: the store state after the tick and
the error logged by the `catch` block, if any.  The result type is total
(no exception component): an error raised by the store call never leaves
the tick. -/
structure TickResult where
  store : List Secret
  loggedError : Option String
  deriving Repr, DecidableEq

/-- `dbCleaner` in `server/bootstrap.js`: try to delete every secret with
`expiresAt <= now`; on a store error, `catch` it, log it via
`console.error`, and return normally with the store untouched. -/
def dbCleaner (outcome : StoreOutcome) (store : List Secret) (now : Nat) : TickResult :=
  match outcome with
  | .ok => { store := secretDeleteManyExpired store now, loggedError := none }
  | .storeError msg => { store := store, loggedError := some msg }

/-- The `setInterval(() => { dbCleaner(); }, 20 * 1000)` period in
`server/bootstrap.js` (`main`). -/
def dbCleanerIntervalMs : Nat := 20 * 1000

/-! ## Lemmas about the sweep -/

theorem mem_secretDeleteManyExpired (store : List Secret) (now : Nat) (s : Secret) :
    s ∈ secretDeleteManyExpired store now ↔ s ∈ store ∧ now < s.expiresAt := by
  simp [secretDeleteManyExpired, List.mem_filter, Nat.lt_iff_add_one_le, Nat.not_le]

theorem secretDeleteManyExpired_idem (store : List Secret) (now : Nat) :
    secretDeleteManyExpired (secretDeleteManyExpired store now) now =
      secretDeleteManyExpired store now := by
  simp [secretDeleteManyExpired, List.filter_filter]

/-! ## Claim theorems: ExpirySweeper -/

/-- C5: the expiry sweeper runs on a fixed 20-second interval, and a
successful tick at time `now` removes exactly the records with
`expiresAt ≤ now` — independent of `maxViews` or `preventBurn` — while
every record with `expiresAt > now` survives the tick unchanged (it is
the very same record, still in the store). -/
theorem c5_sweeper_deletes_exactly_expired (store : List Secret) (now : Nat) (s : Secret) :
    dbCleanerIntervalMs = 20000 ∧
      (s ∈ (dbCleaner .ok store now).store ↔ s ∈ store ∧ now < s.expiresAt) := by
  refine ⟨rfl, ?_⟩
  simpa [dbCleaner] using mem_secretDeleteManyExpired store now s

/-- C8: a store error raised during a sweep tick is caught inside that
tick: the tick still returns a total `TickResult` (nothing propagates),
the error is logged, the store is left untouched, and the next tick runs
`dbCleaner` exactly as if the failed tick had never happened. -/
theorem c8_sweep_error_contained (store : List Secret) (now now' : Nat)
    (msg : String) (nextOutcome : StoreOutcome) :
    (dbCleaner (.storeError msg) store now).store = store ∧
      (dbCleaner (.storeError msg) store now).loggedError = some msg ∧
      dbCleaner nextOutcome (dbCleaner (.storeError msg) store now).store now' =
        dbCleaner nextOutcome store now' := by
  exact ⟨rfl, rfl, rfl⟩

/-- C9: the expiry sweep is idempotent: a second successful tick at the
same instant (no new expirations in between) deletes nothing — the store
is already exactly the survivors — and neither tick logs an error. -/
theorem c9_sweep_idempotent (store : List Secret) (now : Nat) :
    (dbCleaner .ok (dbCleaner .ok store now).store now).store =
        (dbCleaner .ok store now).store ∧
      (dbCleaner .ok store now).loggedError = none ∧
      (dbCleaner .ok (dbCleaner .ok store now).store now).loggedError = none := by
  refine ⟨?_, rfl, rfl⟩
  simpa [dbCleaner] using secretDeleteManyExpired_idem store now

/-! ## ViewConsumer (spec-modelled)

The controller implementing `viewSecret` / `consume` is not among the
source files of this snapshot (only the Prisma `Secret` schema is), so
the consumption step is modelled from the spec. -/

/-- Modelled from the spec: the live view of a secret as seen by
`consume` — the missing `viewSecret` controller is not in the snapshot.
`remainingViews` is "initialized to `maxViews`, decremented exactly once
per admissible view" (spec §3). -/
structure LiveSecret where
  remainingViews : Nat
  preventBurn : Bool
  payload : String
  deriving Repr, DecidableEq

/-- Outcome of one `consume` call (spec §4.2 / §6). -/
inductive ConsumeResult where
  | payload : String → ConsumeResult
  | exhausted : ConsumeResult
  | notFound : ConsumeResult
  deriving Repr, DecidableEq

/-- Modelled from the spec: `atomicConsumeView(id)` of §6 — the missing
store primitive behind `consume`.  "Decrement `remainingViews` by 1 and
return the payload only if `remainingViews > 0`, in the same atomic step
as the check"; after the decrement that reaches 0 the same step removes
the record unless `preventBurn` is set (spec §4.2).  The state is the
row for one fixed id: `none` when the row is physically absent. -/
def atomicConsumeView : Option LiveSecret → Option LiveSecret × ConsumeResult
  | none => (none, .notFound)
  | some s =>
    if s.remainingViews = 0 then (some s, .exhausted)
    else
      let r := s.remainingViews - 1
      if r = 0 ∧ s.preventBurn = false then (none, .payload s.payload)
      else (some { s with remainingViews := r }, .payload s.payload)

/-- `k` consume calls on the same id.  Spec §5: "for a single `id`, all
`consume` calls are linearized by the store's atomic conditional-update
primitive", so every interleaving of `k` concurrent callers is some
sequence of `k` atomic steps — this sequential run ranges over exactly
the behaviours any interleaving can produce. -/
def runConsumes : Nat → Option LiveSecret → List ConsumeResult × Option LiveSecret
  | 0, st => ([], st)
  | Nat.succ k, st =>
    let p := atomicConsumeView st
    let q := runConsumes k p.1
    (p.2 :: q.1, q.2)

/-- Whether a `consume` call received a successful payload. -/
def ConsumeResult.isSuccess : ConsumeResult → Bool
  | .payload _ => true
  | _ => false

/-- Number of calls in a trace that received a successful payload. -/
def successCount (rs : List ConsumeResult) : Nat :=
  (rs.filter ConsumeResult.isSuccess).length

/-- Number of steps among `k` consume calls at which the physical record
transitions from present to absent (a physical deletion event). -/
def deletionsIn : Nat → Option LiveSecret → Nat
  | 0, _ => 0
  | Nat.succ k, st =>
    let st' := (atomicConsumeView st).1
    (if st.isSome ∧ st'.isNone = true then 1 else 0) + deletionsIn k st'

/-! ### Lemmas about consume traces -/

theorem runConsumes_none (k : Nat) :
    runConsumes k none = (List.replicate k .notFound, none) := by
  induction k with
  | zero => rfl
  | succ k ih => simp [runConsumes, atomicConsumeView, ih, List.replicate]

theorem runConsumes_exhausted (k : Nat) (pb : Bool) (p : String) :
    runConsumes k (some ⟨0, pb, p⟩) = (List.replicate k .exhausted, some ⟨0, pb, p⟩) := by
  induction k with
  | zero => rfl
  | succ k ih => simp [runConsumes, atomicConsumeView, ih, List.replicate]

theorem successCount_replicate_notFound (k : Nat) :
    successCount (List.replicate k ConsumeResult.notFound) = 0 := by
  simp [successCount, List.filter_replicate, ConsumeResult.isSuccess]

theorem successCount_replicate_exhausted (k : Nat) :
    successCount (List.replicate k ConsumeResult.exhausted) = 0 := by
  simp [successCount, List.filter_replicate, ConsumeResult.isSuccess]

theorem successCount_runConsumes (k n : Nat) (p : String) :
    successCount (runConsumes k (some ⟨n, false, p⟩)).1 = min n k := by
  induction k generalizing n with
  | zero => simp [runConsumes, successCount]
  | succ k ih =>
    match n with
    | 0 =>
      rw [runConsumes_exhausted]
      simp [successCount_replicate_exhausted]
    | 1 =>
      simp only [runConsumes, atomicConsumeView]
      norm_num
      rw [runConsumes_none]
      simp [successCount, List.filter_cons, ConsumeResult.isSuccess,
        List.filter_replicate]
    | Nat.succ (Nat.succ m) =>
      simp only [runConsumes, atomicConsumeView]
      norm_num
      simp only [successCount, List.filter_cons, ConsumeResult.isSuccess]
      have := ih (m + 1)
      simp only [successCount] at this
      simp [this, Nat.succ_min_succ]

theorem deletionsIn_none (k : Nat) : deletionsIn k none = 0 := by
  induction k with
  | zero => rfl
  | succ k ih => simp [deletionsIn, atomicConsumeView, ih]

theorem deletionsIn_exhausted (k : Nat) (pb : Bool) (p : String) :
    deletionsIn k (some ⟨0, pb, p⟩) = 0 := by
  induction k with
  | zero => rfl
  | succ k ih => simp [deletionsIn, atomicConsumeView, ih]

theorem deletionsIn_runConsumes (k n : Nat) (p : String) :
    deletionsIn k (some ⟨n, false, p⟩) = if 0 < n ∧ n ≤ k then 1 else 0 := by
  induction k generalizing n with
  | zero =>
    have h0 : ¬ (0 < n ∧ n = 0) := by omega
    simp [deletionsIn, h0]
  | succ k ih =>
    match n with
    | 0 => simp [deletionsIn_exhausted]
    | 1 =>
      simp only [deletionsIn, atomicConsumeView]
      norm_num
      simp [deletionsIn_none]
    | Nat.succ (Nat.succ m) =>
      simp only [deletionsIn, atomicConsumeView]
      norm_num
      rw [ih (m + 1)]
      have h1 : (0 < m + 1 ∧ m + 1 ≤ k) ↔ (0 < m + 2 ∧ m + 2 ≤ k + 1) := by omega
      by_cases h : 0 < m + 1 ∧ m + 1 ≤ k
      · simp [h, h1.mp h]
      · simp [h, fun hc => h (h1.mpr hc)]

/-! ### Claim theorem: ViewConsumer concurrency bound -/

/-- C1: for a secret with `maxViews = n` (so `remainingViews` starts at
`n`, burn enabled), any `k` concurrent `consume` calls on its id —
linearized by the store into a sequence of `k` atomic steps — yield
exactly `min n k` successful payloads, never `n+1` or more, and once
exhaustion is reached (`0 < n ≤ k`) the physical deletion of the record
happens exactly once across the whole run. -/
theorem c1_consume_bounded_and_single_delete (n k : Nat) (p : String) :
    successCount (runConsumes k (some ⟨n, false, p⟩)).1 = min n k ∧
      successCount (runConsumes k (some ⟨n, false, p⟩)).1 ≤ n ∧
      (0 < n → n ≤ k → deletionsIn k (some ⟨n, false, p⟩) = 1) := by
  refine ⟨successCount_runConsumes k n p, ?_, ?_⟩
  · rw [successCount_runConsumes k n p]; exact Nat.min_le_left n k
  · intro h1 h2
    rw [deletionsIn_runConsumes]
    simp [h1, h2]

/-- C1 witness: with `maxViews = 2` and `k = 5` callers, exactly 2
succeed and the deletion happens once. -/
theorem c1_consume_bounded_and_single_delete_witness :
    successCount (runConsumes 5 (some ⟨2, false, "pay"⟩)).1 = min 2 5 ∧
      successCount (runConsumes 5 (some ⟨2, false, "pay"⟩)).1 ≤ 2 ∧
      deletionsIn 5 (some ⟨2, false, "pay"⟩) = 1 := by
  have h := c1_consume_bounded_and_single_delete 2 5 "pay"
  exact ⟨h.1, h.2.1, h.2.2 (by decide) (by decide)⟩

/-! ## Creation endpoints

Shallow embedding of the `/api/encrypt` controller (the file
concatenated into `server/bootstrap.js`) and of the two embedded
versions of the `/api/password/generate` controller in
`server/controllers/password.js`.  The fastify JSON-schema validation of
each route runs before its handler, so each route is embedded as a
schema step followed by the handler's own checks. -/

/-- Modelled from the spec: `VALID_TTL` is imported from
`server/helpers/validate-ttl.js`, which is not in the snapshot; the spec
gives the allow-list of valid lifetime values in seconds. -/
def VALID_TTL : List Nat := [300, 3600, 86400, 604800, 1209600, 2419200]

/-- `DEFAULT_EXPIRATION = 60 * 60 * 24 * 1000` — 1 day in milliseconds. -/
def DEFAULT_EXPIRATION : Nat := 60 * 60 * 24 * 1000

/-- The instance configuration the creation handlers read via
`config.get('secret.maxViewsLimit')` and
`config.get('secret.enableBurnAfterTime')`. -/
structure SecretConfig where
  maxViewsLimit : Nat
  enableBurnAfterTime : Bool
  deriving Repr, DecidableEq

/-- External collaborators from `shared/helpers/crypto.js` and the
base64 key encoding (`Buffer.from(key).toString('base64')`), passed in
at their import boundary. -/
structure CryptoOps where
  encrypt : String → String → String
  encodeKey : String → String

/-- The `data` object passed to `prisma.secret.create` by a creation
handler.  `preventBurn` is the column value: when the handler omits the
field, the schema default `false` applies
(`"preventBurn" BOOLEAN NOT NULL DEFAULT false`). -/
structure CreatedSecret where
  title : Option String
  maxViews : Nat
  preventBurn : Bool
  data : String
  expiresAt : Nat
  deriving Repr, DecidableEq

/-- The 200-response of a creation handler.  `password` is the plaintext
generated password when the handler includes it, `none` otherwise (the
`/api/encrypt` responses never carry one). -/
structure ApiResponse where
  url : String
  secretId : String
  password : Option String
  deriving Repr, DecidableEq

/-- A handler reply: `reply.code(200).send(...)` or
`reply.code(400).send({ error })`. -/
inductive Reply (α : Type) where
  | ok : α → Reply α
  | badRequest : String → Reply α
  deriving Repr, DecidableEq

/-- Whether a reply is the 200 success. -/
def Reply.isOk {α : Type} : Reply α → Bool
  | .ok _ => true
  | .badRequest _ => false

/-- `const finalPreventBurn = enableBurnAfterTime ? preventBurn : true;`
— the coercion applied by every handler that stores `preventBurn`. -/
def finalPreventBurn (cfg : SecretConfig) (preventBurn : Bool) : Bool :=
  if cfg.enableBurnAfterTime then preventBurn else true

/-- `parseInt(ttl) ? parseInt(ttl) * 1000 : DEFAULT_EXPIRATION` — the
POST handlers' expiry offset: `ttl` seconds in milliseconds, except that
a falsy (zero) ttl falls back to the one-day default. -/
def ttlMillisOrDefault (ttl : Nat) : Nat :=
  if ttl = 0 then DEFAULT_EXPIRATION else ttl * 1000

/-- The handlers' blank-password test
`!password || password.trim().length === 0`: a string trims to the empty
string exactly when every character is whitespace (vacuously so for the
empty string). -/
def isBlank (s : String) : Bool := s.data.all Char.isWhitespace

/-- Request body of `POST /api/encrypt` (and the analogous query of
`GET /api/encrypt`), after fastify has applied the schema defaults. -/
structure EncryptBody where
  password : String
  ttl : Nat
  maxViews : Nat
  preventBurn : Bool
  title : Option String
  deriving Repr, DecidableEq

/-- The `POST /api/encrypt` route (`encryptSecret` controller): fastify
schema (`password` minLength 1, `ttl` enum `VALID_TTL`, `maxViews`
integer 1..`maxViewsLimit`, `title` maxLength 255), then the handler:
non-blank password, `maxViews` re-check, the `enableBurnAfterTime`
check, `preventBurn` coercion, and the `prisma.secret.create` call plus
the shareable-URL response. -/
def encryptSecretPost (cfg : SecretConfig) (crypto : CryptoOps) (key : String)
    (secretId : String) (baseUrl : String) (now : Nat) (b : EncryptBody) :
    Reply (CreatedSecret × ApiResponse) :=
  if ¬ (1 ≤ b.password.length ∧ b.ttl ∈ VALID_TTL ∧
        1 ≤ b.maxViews ∧ b.maxViews ≤ cfg.maxViewsLimit ∧
        (b.title.getD "").length ≤ 255) then
    .badRequest "schema validation failed"
  else if isBlank b.password then
    .badRequest "Password is required and must be a non-empty string"
  else if b.maxViews < 1 ∨ cfg.maxViewsLimit < b.maxViews then
    .badRequest "maxViews must be a number between 1 and the configured limit"
  else if cfg.enableBurnAfterTime = false ∧ b.preventBurn = false then
    .badRequest "Burn after time feature is disabled for this instance"
  else
    .ok ({ title := b.title.map (fun t => crypto.encrypt t key),
           maxViews := b.maxViews,
           preventBurn := finalPreventBurn cfg b.preventBurn,
           data := crypto.encrypt b.password key,
           expiresAt := now + ttlMillisOrDefault b.ttl },
         { url := baseUrl ++ "/secret/" ++ secretId ++ "#" ++ crypto.encodeKey key,
           secretId := secretId,
           password := none })

/-- The `GET /api/encrypt` route: its fastify schema only constrains the
query strings to digit patterns and `true`/`false` enums (captured here
by the types), so every check lives in the handler: non-blank password,
`VALID_TTL` membership, `maxViews` bounds, the `enableBurnAfterTime`
check, then creation with `expiresAt = Date.now() + ttlNum * 1000`. -/
def encryptSecretGet (cfg : SecretConfig) (crypto : CryptoOps) (key : String)
    (secretId : String) (baseUrl : String) (now : Nat) (b : EncryptBody) :
    Reply (CreatedSecret × ApiResponse) :=
  if isBlank b.password then
    .badRequest "Password is required and must be a non-empty string"
  else if b.ttl ∉ VALID_TTL then
    .badRequest "TTL must be one of the valid values"
  else if b.maxViews < 1 ∨ cfg.maxViewsLimit < b.maxViews then
    .badRequest "maxViews must be a number between 1 and the configured limit"
  else if cfg.enableBurnAfterTime = false ∧ b.preventBurn = false then
    .badRequest "Burn after time feature is disabled for this instance"
  else
    .ok ({ title := b.title.map (fun t => crypto.encrypt t key),
           maxViews := b.maxViews,
           preventBurn := finalPreventBurn cfg b.preventBurn,
           data := crypto.encrypt b.password key,
           expiresAt := now + b.ttl * 1000 },
         { url := baseUrl ++ "/secret/" ++ secretId ++ "#" ++ crypto.encodeKey key,
           secretId := secretId,
           password := none })

/-- Request body of `POST /api/password/generate` after schema defaults.
The first controller version ignores `preventBurn` and `showPassword`;
the second reads both (`preventBurn` is not in its schema but is
destructured from the body). -/
structure GenerateBody where
  length : Nat
  numbers : Bool
  symbols : Bool
  uppercase : Bool
  lowercase : Bool
  excludeSimilarCharacters : Bool
  strict : Bool
  ttl : Nat
  maxViews : Nat
  preventBurn : Bool
  title : Option String
  showPassword : Bool
  deriving Repr, DecidableEq

/-- First embedded version of the `POST /api/password/generate` route:
schema (`length` 4..128, `ttl` enum `VALID_TTL`, `maxViews` integer
1..**999** hard-coded, `title` maxLength 255), then the handler's
character-set and length checks.  No `maxViewsLimit` check, no
`preventBurn` handling (the stored column takes the DB default `false`),
and the response always carries the plaintext generated password.
`generatedPassword` stands for the output of the external
`generate-password` library. -/
def postGenerateV1 (crypto : CryptoOps) (key : String) (generatedPassword : String)
    (secretId : String) (baseUrl : String) (now : Nat) (b : GenerateBody) :
    Reply (CreatedSecret × ApiResponse) :=
  if ¬ (4 ≤ b.length ∧ b.length ≤ 128 ∧ b.ttl ∈ VALID_TTL ∧
        1 ≤ b.maxViews ∧ b.maxViews ≤ 999 ∧ (b.title.getD "").length ≤ 255) then
    .badRequest "schema validation failed"
  else if b.numbers = false ∧ b.symbols = false ∧ b.uppercase = false ∧
      b.lowercase = false then
    .badRequest "At least one character set must be enabled"
  else if b.length < 4 ∨ 128 < b.length then
    .badRequest "Password length must be between 4 and 128 characters"
  else
    .ok ({ title := b.title.map (fun t => crypto.encrypt t key),
           maxViews := b.maxViews,
           preventBurn := false,
           data := crypto.encrypt generatedPassword key,
           expiresAt := now + ttlMillisOrDefault b.ttl },
         { url := baseUrl ++ "/secret/" ++ secretId ++ "#" ++ crypto.encodeKey key,
           secretId := secretId,
           password := some generatedPassword })

/-- Second embedded version of the `POST /api/password/generate` route:
schema (`maxViews` 1..`maxViewsLimit` from config), then the handler's
character-set, length, `maxViews` and `enableBurnAfterTime` checks,
`preventBurn` coercion, and a response that carries the plaintext
password only when `showPassword` is set. -/
def postGenerateV2 (cfg : SecretConfig) (crypto : CryptoOps) (key : String)
    (generatedPassword : String) (secretId : String) (baseUrl : String) (now : Nat)
    (b : GenerateBody) : Reply (CreatedSecret × ApiResponse) :=
  if ¬ (4 ≤ b.length ∧ b.length ≤ 128 ∧ b.ttl ∈ VALID_TTL ∧
        1 ≤ b.maxViews ∧ b.maxViews ≤ cfg.maxViewsLimit ∧
        (b.title.getD "").length ≤ 255) then
    .badRequest "schema validation failed"
  else if b.numbers = false ∧ b.symbols = false ∧ b.uppercase = false ∧
      b.lowercase = false then
    .badRequest "At least one character set must be enabled"
  else if b.length < 4 ∨ 128 < b.length then
    .badRequest "Password length must be between 4 and 128 characters"
  else if b.maxViews < 1 ∨ cfg.maxViewsLimit < b.maxViews then
    .badRequest "maxViews must be a number between 1 and the configured limit"
  else if cfg.enableBurnAfterTime = false ∧ b.preventBurn = false then
    .badRequest "Burn after time feature is disabled for this instance"
  else
    .ok ({ title := b.title.map (fun t => crypto.encrypt t key),
           maxViews := b.maxViews,
           preventBurn := finalPreventBurn cfg b.preventBurn,
           data := crypto.encrypt generatedPassword key,
           expiresAt := now + ttlMillisOrDefault b.ttl },
         { url := baseUrl ++ "/secret/" ++ secretId ++ "#" ++ crypto.encodeKey key,
           secretId := secretId,
           password := if b.showPassword then some generatedPassword else none })

/-- Second version of the `GET /api/password/generate` route: the query
schema is patterns and `true`/`false` enums only (captured by the
types); the handler checks length, `VALID_TTL`, `maxViews` bounds and
`enableBurnAfterTime` in that order, then the character sets.  Its
create call passes no `title`, and `expiresAt = Date.now() + ttlNum *
1000` with no default branch. -/
def getGenerateV2 (cfg : SecretConfig) (crypto : CryptoOps) (key : String)
    (generatedPassword : String) (secretId : String) (baseUrl : String) (now : Nat)
    (b : GenerateBody) : Reply (CreatedSecret × ApiResponse) :=
  if b.length < 4 ∨ 128 < b.length then
    .badRequest "Password length must be a number between 4 and 128"
  else if b.ttl ∉ VALID_TTL then
    .badRequest "TTL must be one of the valid values"
  else if b.maxViews < 1 ∨ cfg.maxViewsLimit < b.maxViews then
    .badRequest "maxViews must be a number between 1 and the configured limit"
  else if cfg.enableBurnAfterTime = false ∧ b.preventBurn = false then
    .badRequest "Burn after time feature is disabled for this instance"
  else if b.numbers = false ∧ b.symbols = false ∧ b.uppercase = false ∧
      b.lowercase = false then
    .badRequest "At least one character set must be enabled"
  else
    .ok ({ title := none,
           maxViews := b.maxViews,
           preventBurn := finalPreventBurn cfg b.preventBurn,
           data := crypto.encrypt generatedPassword key,
           expiresAt := now + b.ttl * 1000 },
         { url := baseUrl ++ "/secret/" ++ secretId ++ "#" ++ crypto.encodeKey key,
           secretId := secretId,
           password := if b.showPassword then some generatedPassword else none })

/-! ## Organisation-email restriction
(`restrictOrganizationEmailHandler`, concatenated into
`server/bootstrap.js`) -/

/-- Modelled from the spec: `getEmailDomain` from
`shared/helpers/get-email-domain.js` is not in the snapshot.  The domain
of an email address: the part after the last `@`, or the whole string
when no `@` is present (so a bare domain is its own domain). -/
def getEmailDomain (email : String) : String :=
  (email.splitOn "@").getLastD ""

/-- `authenticationRegex.test(url)` for the case-insensitive regex
matching URLs that start with `/api/authentication/signup`. -/
def isSignupUrl (url : String) : Bool :=
  url.toLower.startsWith "/api/authentication/signup"

/-- Outcome of a fastify pre-handler: fall through, or send an error
reply with a status code and message. -/
inductive GateResult where
  | pass : GateResult
  | deny : Nat → String → GateResult
  deriving Repr, DecidableEq

/-- The handler's `errorMessage` constant. -/
def accessDeniedMessage : String := "Access denied. You are not allowed create a user. 🥲"

/-- `restrict.split(',').map(trim).filter(length > 0)`. -/
def allowedDomainsOf (restrict : String) : List String :=
  ((restrict.splitOn ",").map String.trim).filter (fun d => !d.isEmpty)

/-- `restrictOrganizationEmailHandler(request, reply)`: no effect when
the `restrict_organization_email` setting is falsy (empty) or the URL is
not an account-creation path; otherwise 403 unless the email's domain
matches some entry of the allowlist (`getEmailDomain` is applied to each
entry, so entries may themselves be emails). -/
def restrictOrganizationEmailHandler (restrict : String) (url : String)
    (bodyEmail : Option String) : GateResult :=
  let email := bodyEmail.getD ""
  if restrict = "" ∨ isSignupUrl url = false then .pass
  else if (allowedDomainsOf restrict).any
      (fun d => getEmailDomain d == getEmailDomain email) then .pass
  else .deny 403 accessDeniedMessage

/-- C7: the organisation-email gate denies with 403 exactly when the
setting is non-empty, the request URL is a signup path, and the domain
of the request's email matches no entry of the comma-separated
allowlist; in every other case — including all secret-view paths — it
falls through with no effect. -/
theorem c7_org_email_gate (restrict url : String) (bodyEmail : Option String) :
    (restrictOrganizationEmailHandler restrict url bodyEmail =
        .deny 403 accessDeniedMessage ↔
      restrict ≠ "" ∧ isSignupUrl url = true ∧
        ∀ d ∈ allowedDomainsOf restrict,
          getEmailDomain d ≠ getEmailDomain (bodyEmail.getD "")) ∧
    (restrictOrganizationEmailHandler restrict url bodyEmail = .pass ↔
      ¬ (restrict ≠ "" ∧ isSignupUrl url = true ∧
        ∀ d ∈ allowedDomainsOf restrict,
          getEmailDomain d ≠ getEmailDomain (bodyEmail.getD ""))) := by
  simp only [restrictOrganizationEmailHandler]
  split_ifs with h1 h2
  · have hP : ¬ (restrict ≠ "" ∧ isSignupUrl url = true ∧
        ∀ d ∈ allowedDomainsOf restrict,
          getEmailDomain d ≠ getEmailDomain (bodyEmail.getD "")) := by
      rcases h1 with h | h
      · exact fun hc => hc.1 h
      · exact fun hc => by rw [hc.2.1] at h; exact Bool.noConfusion h
    exact ⟨iff_of_false (by simp) hP, iff_of_true rfl hP⟩
  · have hP : ¬ (restrict ≠ "" ∧ isSignupUrl url = true ∧
        ∀ d ∈ allowedDomainsOf restrict,
          getEmailDomain d ≠ getEmailDomain (bodyEmail.getD "")) := by
      obtain ⟨d, hd, he⟩ := List.any_eq_true.mp h2
      exact fun hc => hc.2.2 d hd (beq_iff_eq.mp he)
    exact ⟨iff_of_false (by simp) hP, iff_of_true rfl hP⟩
  · have hP : restrict ≠ "" ∧ isSignupUrl url = true ∧
        ∀ d ∈ allowedDomainsOf restrict,
          getEmailDomain d ≠ getEmailDomain (bodyEmail.getD "") := by
      have h1' := not_or.mp h1
      refine ⟨h1'.1, ?_, ?_⟩
      · cases hb : isSignupUrl url with
        | false => exact absurd hb h1'.2
        | true => rfl
      · intro d hd heq
        exact h2 (List.any_eq_true.mpr ⟨d, hd, beq_iff_eq.mpr heq⟩)
    exact ⟨iff_of_true rfl hP,
      iff_of_false (by simp) (fun hn => hn hP)⟩

/-! ## Inversion and rejection lemmas about the creation routes -/

theorem VALID_TTL_ne_zero (t : Nat) (h : t ∈ VALID_TTL) : t ≠ 0 := by
  intro h0; rw [h0] at h; exact absurd h (by decide)

theorem ttlMillisOrDefault_of_ne_zero (t : Nat) (h : t ≠ 0) :
    ttlMillisOrDefault t = t * 1000 := by
  simp [ttlMillisOrDefault, h]

theorem finalPreventBurn_of_disabled (cfg : SecretConfig) (pb : Bool)
    (h : cfg.enableBurnAfterTime = false) : finalPreventBurn cfg pb = true := by
  simp [finalPreventBurn, h]

theorem encryptSecretPost_ok_inv (cfg : SecretConfig) (crypto : CryptoOps)
    (key sid base : String) (now : Nat) (b : EncryptBody) (s : CreatedSecret)
    (r : ApiResponse) (h : encryptSecretPost cfg crypto key sid base now b = .ok (s, r)) :
    (1 ≤ b.password.length ∧ b.ttl ∈ VALID_TTL ∧ 1 ≤ b.maxViews ∧
        b.maxViews ≤ cfg.maxViewsLimit ∧ (b.title.getD "").length ≤ 255) ∧
      isBlank b.password = false ∧
      ¬ (cfg.enableBurnAfterTime = false ∧ b.preventBurn = false) ∧
      s = { title := b.title.map (fun t => crypto.encrypt t key),
            maxViews := b.maxViews,
            preventBurn := finalPreventBurn cfg b.preventBurn,
            data := crypto.encrypt b.password key,
            expiresAt := now + ttlMillisOrDefault b.ttl } ∧
      r = { url := base ++ "/secret/" ++ sid ++ "#" ++ crypto.encodeKey key,
            secretId := sid, password := none } := by
  unfold encryptSecretPost at h
  split_ifs at h with h1 h2 h3 h4
  all_goals try (cases h)
  refine ⟨h1, ?_, h4, rfl, rfl⟩
  cases hb : isBlank b.password with
  | false => rfl
  | true => exact absurd hb h2

theorem encryptSecretGet_ok_inv (cfg : SecretConfig) (crypto : CryptoOps)
    (key sid base : String) (now : Nat) (b : EncryptBody) (s : CreatedSecret)
    (r : ApiResponse) (h : encryptSecretGet cfg crypto key sid base now b = .ok (s, r)) :
    isBlank b.password = false ∧
      b.ttl ∈ VALID_TTL ∧
      ¬ (b.maxViews < 1 ∨ cfg.maxViewsLimit < b.maxViews) ∧
      ¬ (cfg.enableBurnAfterTime = false ∧ b.preventBurn = false) ∧
      s = { title := b.title.map (fun t => crypto.encrypt t key),
            maxViews := b.maxViews,
            preventBurn := finalPreventBurn cfg b.preventBurn,
            data := crypto.encrypt b.password key,
            expiresAt := now + b.ttl * 1000 } ∧
      r = { url := base ++ "/secret/" ++ sid ++ "#" ++ crypto.encodeKey key,
            secretId := sid, password := none } := by
  unfold encryptSecretGet at h
  split_ifs at h with h1 h2 h3 h4
  all_goals try (cases h)
  refine ⟨?_, h2, h3, h4, rfl, rfl⟩
  cases hb : isBlank b.password with
  | false => rfl
  | true => exact absurd hb h1

theorem postGenerateV1_ok_inv (crypto : CryptoOps) (key gp sid base : String)
    (now : Nat) (b : GenerateBody) (s : CreatedSecret) (r : ApiResponse)
    (h : postGenerateV1 crypto key gp sid base now b = .ok (s, r)) :
    (4 ≤ b.length ∧ b.length ≤ 128 ∧ b.ttl ∈ VALID_TTL ∧
        1 ≤ b.maxViews ∧ b.maxViews ≤ 999 ∧ (b.title.getD "").length ≤ 255) ∧
      s = { title := b.title.map (fun t => crypto.encrypt t key),
            maxViews := b.maxViews,
            preventBurn := false,
            data := crypto.encrypt gp key,
            expiresAt := now + ttlMillisOrDefault b.ttl } ∧
      r = { url := base ++ "/secret/" ++ sid ++ "#" ++ crypto.encodeKey key,
            secretId := sid, password := some gp } := by
  unfold postGenerateV1 at h
  split_ifs at h with h1 h2 h3
  all_goals try (cases h)
  exact ⟨h1, rfl, rfl⟩

theorem postGenerateV2_ok_inv (cfg : SecretConfig) (crypto : CryptoOps)
    (key gp sid base : String) (now : Nat) (b : GenerateBody) (s : CreatedSecret)
    (r : ApiResponse) (h : postGenerateV2 cfg crypto key gp sid base now b = .ok (s, r)) :
    (4 ≤ b.length ∧ b.length ≤ 128 ∧ b.ttl ∈ VALID_TTL ∧
        1 ≤ b.maxViews ∧ b.maxViews ≤ cfg.maxViewsLimit ∧
        (b.title.getD "").length ≤ 255) ∧
      ¬ (b.maxViews < 1 ∨ cfg.maxViewsLimit < b.maxViews) ∧
      ¬ (cfg.enableBurnAfterTime = false ∧ b.preventBurn = false) ∧
      s = { title := b.title.map (fun t => crypto.encrypt t key),
            maxViews := b.maxViews,
            preventBurn := finalPreventBurn cfg b.preventBurn,
            data := crypto.encrypt gp key,
            expiresAt := now + ttlMillisOrDefault b.ttl } ∧
      r = { url := base ++ "/secret/" ++ sid ++ "#" ++ crypto.encodeKey key,
            secretId := sid,
            password := if b.showPassword then some gp else none } := by
  unfold postGenerateV2 at h
  split_ifs at h with h1 h2 h3 h4 h5 h6
  all_goals try (cases h)
  all_goals exact ⟨h1, h4, h5, rfl, by simp [h6]⟩

theorem getGenerateV2_ok_inv (cfg : SecretConfig) (crypto : CryptoOps)
    (key gp sid base : String) (now : Nat) (b : GenerateBody) (s : CreatedSecret)
    (r : ApiResponse) (h : getGenerateV2 cfg crypto key gp sid base now b = .ok (s, r)) :
    ¬ (b.length < 4 ∨ 128 < b.length) ∧
      b.ttl ∈ VALID_TTL ∧
      ¬ (b.maxViews < 1 ∨ cfg.maxViewsLimit < b.maxViews) ∧
      ¬ (cfg.enableBurnAfterTime = false ∧ b.preventBurn = false) ∧
      s = { title := none,
            maxViews := b.maxViews,
            preventBurn := finalPreventBurn cfg b.preventBurn,
            data := crypto.encrypt gp key,
            expiresAt := now + b.ttl * 1000 } ∧
      r = { url := base ++ "/secret/" ++ sid ++ "#" ++ crypto.encodeKey key,
            secretId := sid,
            password := if b.showPassword then some gp else none } := by
  unfold getGenerateV2 at h
  split_ifs at h with h1 h2 h3 h4 h5 h6
  all_goals try (cases h)
  all_goals exact ⟨h1, h2, h3, h4, rfl, by simp [h6]⟩

theorem encryptSecretPost_burnOff_rejects (cfg : SecretConfig) (crypto : CryptoOps)
    (key sid base : String) (now : Nat) (b : EncryptBody)
    (hcfg : cfg.enableBurnAfterTime = false) (hpb : b.preventBurn = false) :
    (encryptSecretPost cfg crypto key sid base now b).isOk = false := by
  unfold encryptSecretPost
  split_ifs <;>
    first
      | rfl
      | exact absurd (⟨hcfg, hpb⟩ : cfg.enableBurnAfterTime = false ∧ b.preventBurn = false)
          ‹¬ (cfg.enableBurnAfterTime = false ∧ b.preventBurn = false)›

theorem postGenerateV2_burnOff_rejects (cfg : SecretConfig) (crypto : CryptoOps)
    (key gp sid base : String) (now : Nat) (b : GenerateBody)
    (hcfg : cfg.enableBurnAfterTime = false) (hpb : b.preventBurn = false) :
    (postGenerateV2 cfg crypto key gp sid base now b).isOk = false := by
  unfold postGenerateV2
  split_ifs <;>
    first
      | rfl
      | exact absurd (⟨hcfg, hpb⟩ : cfg.enableBurnAfterTime = false ∧ b.preventBurn = false)
          ‹¬ (cfg.enableBurnAfterTime = false ∧ b.preventBurn = false)›

theorem getGenerateV2_burnOff_rejects (cfg : SecretConfig) (crypto : CryptoOps)
    (key gp sid base : String) (now : Nat) (b : GenerateBody)
    (hcfg : cfg.enableBurnAfterTime = false) (hpb : b.preventBurn = false) :
    (getGenerateV2 cfg crypto key gp sid base now b).isOk = false := by
  unfold getGenerateV2
  split_ifs <;>
    first
      | rfl
      | exact absurd (⟨hcfg, hpb⟩ : cfg.enableBurnAfterTime = false ∧ b.preventBurn = false)
          ‹¬ (cfg.enableBurnAfterTime = false ∧ b.preventBurn = false)›

theorem encryptSecretPost_maxviews_rejects (cfg : SecretConfig) (crypto : CryptoOps)
    (key sid base : String) (now : Nat) (b : EncryptBody)
    (hmv : b.maxViews < 1 ∨ cfg.maxViewsLimit < b.maxViews) :
    (encryptSecretPost cfg crypto key sid base now b).isOk = false := by
  unfold encryptSecretPost
  split_ifs <;>
    first
      | rfl
      | exact absurd hmv ‹¬ (b.maxViews < 1 ∨ cfg.maxViewsLimit < b.maxViews)›

theorem postGenerateV2_maxviews_rejects (cfg : SecretConfig) (crypto : CryptoOps)
    (key gp sid base : String) (now : Nat) (b : GenerateBody)
    (hmv : b.maxViews < 1 ∨ cfg.maxViewsLimit < b.maxViews) :
    (postGenerateV2 cfg crypto key gp sid base now b).isOk = false := by
  unfold postGenerateV2
  split_ifs <;>
    first
      | rfl
      | exact absurd hmv ‹¬ (b.maxViews < 1 ∨ cfg.maxViewsLimit < b.maxViews)›

theorem postGenerateV1_maxviews_rejects (crypto : CryptoOps)
    (key gp sid base : String) (now : Nat) (b : GenerateBody)
    (hmv : b.maxViews < 1 ∨ 999 < b.maxViews) :
    (postGenerateV1 crypto key gp sid base now b).isOk = false := by
  unfold postGenerateV1
  split_ifs <;>
    first
      | rfl
      | (exfalso
         obtain ⟨-, -, -, hge, hle, -⟩ :=
           ‹4 ≤ b.length ∧ b.length ≤ 128 ∧ b.ttl ∈ VALID_TTL ∧ 1 ≤ b.maxViews ∧
             b.maxViews ≤ 999 ∧ (b.title.getD "").length ≤ 255›
         omega)

theorem encryptSecretGet_ttl_rejects (cfg : SecretConfig) (crypto : CryptoOps)
    (key sid base : String) (now : Nat) (b : EncryptBody)
    (httl : b.ttl ∉ VALID_TTL) :
    (encryptSecretGet cfg crypto key sid base now b).isOk = false := by
  unfold encryptSecretGet
  split_ifs <;>
    first
      | rfl
      | exact absurd ‹b.ttl ∈ VALID_TTL› httl

theorem encryptSecretPost_ttl_rejects (cfg : SecretConfig) (crypto : CryptoOps)
    (key sid base : String) (now : Nat) (b : EncryptBody)
    (httl : b.ttl ∉ VALID_TTL) :
    (encryptSecretPost cfg crypto key sid base now b).isOk = false := by
  unfold encryptSecretPost
  split_ifs <;>
    first
      | rfl
      | exact absurd (‹1 ≤ b.password.length ∧ b.ttl ∈ VALID_TTL ∧ 1 ≤ b.maxViews ∧
            b.maxViews ≤ cfg.maxViewsLimit ∧ (b.title.getD "").length ≤ 255›).2.1 httl

/-! ## Concrete fixtures for the closed evaluations -/

/-- A concrete instantiation of the external crypto collaborators. -/
def cexCrypto : CryptoOps :=
  { encrypt := fun d k => "enc(" ++ d ++ "|" ++ k ++ ")",
    encodeKey := fun k => k }

/-- A well-formed `POST /api/encrypt` body: non-blank password, valid
ttl, default `maxViews` and `preventBurn`. -/
def encBodyOk : EncryptBody :=
  { password := "hunter2", ttl := 86400, maxViews := 1, preventBurn := false,
    title := none }

/-- A `POST /api/password/generate` body with every schema default. -/
def genBodyDefaults : GenerateBody :=
  { length := 16, numbers := true, symbols := true, uppercase := true,
    lowercase := true, excludeSimilarCharacters := false, strict := false,
    ttl := 86400, maxViews := 1, preventBurn := false, title := none,
    showPassword := false }

/-- The defaults body with `maxViews = 500`. -/
def genBody500 : GenerateBody := { genBodyDefaults with maxViews := 500 }

/-- The defaults body with `maxViews = 1000`. -/
def genBody1000 : GenerateBody := { genBodyDefaults with maxViews := 1000 }

/-! ## Claim C2: the server and the plaintext/key -/

/-- C2 is false on the `/api/encrypt` creation path: the request carries
the plaintext (`encBodyOk.password`), the stored `data` is the
server-side encryption of it — not the submitted payload passed through
untouched — and the response URL embeds the server-generated decryption
key `K`. -/
theorem c2_counterexample :
    encryptSecretPost ⟨100, true⟩ cexCrypto "K" "sid" "http://h" 0 encBodyOk =
      .ok ({ title := none, maxViews := 1, preventBurn := false,
             data := "enc(hunter2|K)", expiresAt := 86400000 },
           { url := "http://h/secret/sid#K", secretId := "sid", password := none }) ∧
      encBodyOk.password = "hunter2" ∧ "enc(hunter2|K)" ≠ "hunter2" := by
  exact ⟨by rfl, rfl, by decide⟩

/-- C2 amended: the `/api/encrypt` and `/api/password/generate` paths
are server-side encryption paths — on every successful creation the
stored `data` is the server's own encryption of the plaintext it
received (or generated), the response URL carries the encoded decryption
key in its fragment, and the first password controller returns the
plaintext generated password in the response.  The
server-never-sees-plaintext property belongs to the client-encrypted
creation path, which is not one of these handlers. -/
theorem c2_amended_server_side_encryption (cfg : SecretConfig) (crypto : CryptoOps)
    (key sid base gp : String) (now : Nat) (b : EncryptBody) (g : GenerateBody)
    (s s' : CreatedSecret) (r r' : ApiResponse)
    (h : encryptSecretPost cfg crypto key sid base now b = .ok (s, r))
    (h' : postGenerateV1 crypto key gp sid base now g = .ok (s', r')) :
    s.data = crypto.encrypt b.password key ∧
      r.url = base ++ "/secret/" ++ sid ++ "#" ++ crypto.encodeKey key ∧
      s'.data = crypto.encrypt gp key ∧
      r'.password = some gp ∧
      r'.url = base ++ "/secret/" ++ sid ++ "#" ++ crypto.encodeKey key := by
  obtain ⟨-, -, -, hs, hr⟩ := encryptSecretPost_ok_inv cfg crypto key sid base now b s r h
  obtain ⟨-, hs', hr'⟩ := postGenerateV1_ok_inv crypto key gp sid base now g s' r' h'
  subst hs; subst hr; subst hs'; subst hr'
  exact ⟨rfl, rfl, rfl, rfl, rfl⟩

/-- C2 witness: the amended theorem applied at the concrete inputs of
the counterexample. -/
theorem c2_amended_server_side_encryption_witness :
    "enc(hunter2|K)" = cexCrypto.encrypt encBodyOk.password "K" :=
  (c2_amended_server_side_encryption ⟨100, true⟩ cexCrypto "K" "sid" "http://h" "gp" 0
    encBodyOk genBodyDefaults _ _ _ _ (by rfl) (by rfl)).1

/-! ## Claim C3: creation while `enableBurnAfterTime` is disabled -/

/-- C3 is false: with `enableBurnAfterTime` disabled, a creation request
with the default `preventBurn = false` is not admitted with `preventBurn`
coerced to true — it is rejected with a 400 error. -/
theorem c3_counterexample :
    encryptSecretPost ⟨100, false⟩ cexCrypto "K" "sid" "http://h" 0 encBodyOk =
      .badRequest "Burn after time feature is disabled for this instance" := by rfl

/-- C3 amended: while `enableBurnAfterTime` is disabled, every creation
request that supplies `preventBurn = false` (including the default) is
rejected; only requests that explicitly supply `preventBurn = true` can
be admitted, and any admitted request is stored with
`preventBurn = true`.  Covers the three paths carrying the check:
`POST /api/encrypt`, and the second version's `POST` and `GET`
`/api/password/generate`. -/
theorem c3_amended_burn_disabled (cfg : SecretConfig)
    (hcfg : cfg.enableBurnAfterTime = false) :
    (∀ (crypto : CryptoOps) (key sid base : String) (now : Nat) (b : EncryptBody),
        b.preventBurn = false →
          (encryptSecretPost cfg crypto key sid base now b).isOk = false) ∧
      (∀ (crypto : CryptoOps) (key sid base : String) (now : Nat) (b : EncryptBody)
          (s : CreatedSecret) (r : ApiResponse),
          encryptSecretPost cfg crypto key sid base now b = .ok (s, r) →
            b.preventBurn = true ∧ s.preventBurn = true) ∧
      (∀ (crypto : CryptoOps) (key gp sid base : String) (now : Nat) (b : GenerateBody),
          b.preventBurn = false →
            (postGenerateV2 cfg crypto key gp sid base now b).isOk = false) ∧
      (∀ (crypto : CryptoOps) (key gp sid base : String) (now : Nat) (b : GenerateBody)
          (s : CreatedSecret) (r : ApiResponse),
          postGenerateV2 cfg crypto key gp sid base now b = .ok (s, r) →
            b.preventBurn = true ∧ s.preventBurn = true) ∧
      (∀ (crypto : CryptoOps) (key gp sid base : String) (now : Nat) (b : GenerateBody),
          b.preventBurn = false →
            (getGenerateV2 cfg crypto key gp sid base now b).isOk = false) ∧
      (∀ (crypto : CryptoOps) (key gp sid base : String) (now : Nat) (b : GenerateBody)
          (s : CreatedSecret) (r : ApiResponse),
          getGenerateV2 cfg crypto key gp sid base now b = .ok (s, r) →
            b.preventBurn = true ∧ s.preventBurn = true) := by
  refine ⟨?_, ?_, ?_, ?_, ?_, ?_⟩
  · intro crypto key sid base now b hpb
    exact encryptSecretPost_burnOff_rejects cfg crypto key sid base now b hcfg hpb
  · intro crypto key sid base now b s r h
    obtain ⟨-, -, hburn, hs, -⟩ := encryptSecretPost_ok_inv cfg crypto key sid base now b s r h
    have hpb : b.preventBurn = true := by
      cases hb : b.preventBurn
      · exact absurd ⟨hcfg, hb⟩ hburn
      · rfl
    subst hs
    exact ⟨hpb, by simp [finalPreventBurn, hcfg]⟩
  · intro crypto key gp sid base now b hpb
    exact postGenerateV2_burnOff_rejects cfg crypto key gp sid base now b hcfg hpb
  · intro crypto key gp sid base now b s r h
    obtain ⟨-, -, hburn, hs, -⟩ := postGenerateV2_ok_inv cfg crypto key gp sid base now b s r h
    have hpb : b.preventBurn = true := by
      cases hb : b.preventBurn
      · exact absurd ⟨hcfg, hb⟩ hburn
      · rfl
    subst hs
    exact ⟨hpb, by simp [finalPreventBurn, hcfg]⟩
  · intro crypto key gp sid base now b hpb
    exact getGenerateV2_burnOff_rejects cfg crypto key gp sid base now b hcfg hpb
  · intro crypto key gp sid base now b s r h
    obtain ⟨-, -, -, hburn, hs, -⟩ := getGenerateV2_ok_inv cfg crypto key gp sid base now b s r h
    have hpb : b.preventBurn = true := by
      cases hb : b.preventBurn
      · exact absurd ⟨hcfg, hb⟩ hburn
      · rfl
    subst hs
    exact ⟨hpb, by simp [finalPreventBurn, hcfg]⟩

/-- C3 witness: the amended theorem applied at concrete inputs. -/
theorem c3_amended_burn_disabled_witness :
    (encryptSecretPost ⟨100, false⟩ cexCrypto "K2" "sid2" "http://h" 5 encBodyOk).isOk = false :=
  (c3_amended_burn_disabled ⟨100, false⟩ rfl).1 cexCrypto "K2" "sid2" "http://h" 5 encBodyOk rfl

/-! ## Claim C4: the `maxViews` admission bound -/

/-- C4 is false for the first `/api/password/generate` controller: under
an instance policy with `maxViewsLimit = 100`, a request with
`maxViews = 500` (within the hard-coded schema bound 999) is admitted
and stored with `maxViews = 500 > 100`. -/
theorem c4_counterexample :
    postGenerateV1 cexCrypto "K" "gp" "sid" "http://h" 0 genBody500 =
      .ok ({ title := none, maxViews := 500, preventBurn := false,
             data := "enc(gp|K)", expiresAt := 86400000 },
           { url := "http://h/secret/sid#K", secretId := "sid", password := some "gp" }) ∧
      ¬ (genBody500.maxViews ≤ (⟨100, true⟩ : SecretConfig).maxViewsLimit) := by
  exact ⟨by rfl, by decide⟩

/-- C4 amended: the `/api/encrypt` path and the second password
controller admit a creation exactly when `1 ≤ maxViews ≤ maxViewsLimit`
and store the requested value; the first password controller instead
bounds `maxViews` by the hard-coded 999 with no `maxViewsLimit` check
(so values in `(maxViewsLimit, 999]` are admitted there), also storing
the requested value. -/
theorem c4_amended_maxviews_bounds :
    (∀ (cfg : SecretConfig) (crypto : CryptoOps) (key sid base : String) (now : Nat)
        (b : EncryptBody) (s : CreatedSecret) (r : ApiResponse),
        encryptSecretPost cfg crypto key sid base now b = .ok (s, r) →
          1 ≤ b.maxViews ∧ b.maxViews ≤ cfg.maxViewsLimit ∧ s.maxViews = b.maxViews) ∧
      (∀ (cfg : SecretConfig) (crypto : CryptoOps) (key sid base : String) (now : Nat)
          (b : EncryptBody),
          b.maxViews < 1 ∨ cfg.maxViewsLimit < b.maxViews →
            (encryptSecretPost cfg crypto key sid base now b).isOk = false) ∧
      (∀ (cfg : SecretConfig) (crypto : CryptoOps) (key gp sid base : String) (now : Nat)
          (b : GenerateBody) (s : CreatedSecret) (r : ApiResponse),
          postGenerateV2 cfg crypto key gp sid base now b = .ok (s, r) →
            1 ≤ b.maxViews ∧ b.maxViews ≤ cfg.maxViewsLimit ∧ s.maxViews = b.maxViews) ∧
      (∀ (cfg : SecretConfig) (crypto : CryptoOps) (key gp sid base : String) (now : Nat)
          (b : GenerateBody),
          b.maxViews < 1 ∨ cfg.maxViewsLimit < b.maxViews →
            (postGenerateV2 cfg crypto key gp sid base now b).isOk = false) ∧
      (∀ (crypto : CryptoOps) (key gp sid base : String) (now : Nat)
          (b : GenerateBody) (s : CreatedSecret) (r : ApiResponse),
          postGenerateV1 crypto key gp sid base now b = .ok (s, r) →
            1 ≤ b.maxViews ∧ b.maxViews ≤ 999 ∧ s.maxViews = b.maxViews) ∧
      (∀ (crypto : CryptoOps) (key gp sid base : String) (now : Nat) (b : GenerateBody),
          b.maxViews < 1 ∨ 999 < b.maxViews →
            (postGenerateV1 crypto key gp sid base now b).isOk = false) := by
  refine ⟨?_, ?_, ?_, ?_, ?_, ?_⟩
  · intro cfg crypto key sid base now b s r h
    obtain ⟨⟨-, -, hge, hle, -⟩, -, -, hs, -⟩ :=
      encryptSecretPost_ok_inv cfg crypto key sid base now b s r h
    subst hs; exact ⟨hge, hle, rfl⟩
  · intro cfg crypto key sid base now b hmv
    exact encryptSecretPost_maxviews_rejects cfg crypto key sid base now b hmv
  · intro cfg crypto key gp sid base now b s r h
    obtain ⟨⟨-, -, -, hge, hle, -⟩, -, -, hs, -⟩ :=
      postGenerateV2_ok_inv cfg crypto key gp sid base now b s r h
    subst hs; exact ⟨hge, hle, rfl⟩
  · intro cfg crypto key gp sid base now b hmv
    exact postGenerateV2_maxviews_rejects cfg crypto key gp sid base now b hmv
  · intro crypto key gp sid base now b s r h
    obtain ⟨⟨-, -, -, hge, hle, -⟩, hs, -⟩ :=
      postGenerateV1_ok_inv crypto key gp sid base now b s r h
    subst hs; exact ⟨hge, hle, rfl⟩
  · intro crypto key gp sid base now b hmv
    exact postGenerateV1_maxviews_rejects crypto key gp sid base now b hmv

/-- C4 witness: the amended theorem applied at concrete inputs
(`maxViews = 1000` is rejected even by the first controller). -/
theorem c4_amended_maxviews_bounds_witness :
    (postGenerateV1 cexCrypto "K" "gp" "sid" "http://h" 0 genBody1000).isOk = false :=
  c4_amended_maxviews_bounds.2.2.2.2.2 cexCrypto "K" "gp" "sid" "http://h" 0
    genBody1000 (by decide)

/-! ## Claim C6: the TTL allow-list and the stored expiry -/

/-- C6: on the `/api/encrypt` routes a request whose ttl is outside
`VALID_TTL` is rejected, and every admitted creation stores
`expiresAt = now + ttl * 1000` — exactly ttl seconds after the creation
instant. -/
theorem c6_ttl_allowlist_and_expiry (cfg : SecretConfig) (crypto : CryptoOps)
    (key sid base : String) (now : Nat) (b : EncryptBody) :
    (b.ttl ∉ VALID_TTL → (encryptSecretGet cfg crypto key sid base now b).isOk = false) ∧
      (∀ (s : CreatedSecret) (r : ApiResponse),
          encryptSecretGet cfg crypto key sid base now b = .ok (s, r) →
            b.ttl ∈ VALID_TTL ∧ s.expiresAt = now + b.ttl * 1000) ∧
      (b.ttl ∉ VALID_TTL → (encryptSecretPost cfg crypto key sid base now b).isOk = false) ∧
      (∀ (s : CreatedSecret) (r : ApiResponse),
          encryptSecretPost cfg crypto key sid base now b = .ok (s, r) →
            b.ttl ∈ VALID_TTL ∧ s.expiresAt = now + b.ttl * 1000) := by
  refine ⟨?_, ?_, ?_, ?_⟩
  · intro httl; exact encryptSecretGet_ttl_rejects cfg crypto key sid base now b httl
  · intro s r h
    obtain ⟨-, httl, -, -, hs, -⟩ := encryptSecretGet_ok_inv cfg crypto key sid base now b s r h
    subst hs; exact ⟨httl, rfl⟩
  · intro httl; exact encryptSecretPost_ttl_rejects cfg crypto key sid base now b httl
  · intro s r h
    obtain ⟨⟨-, httl, -, -, -⟩, -, -, hs, -⟩ :=
      encryptSecretPost_ok_inv cfg crypto key sid base now b s r h
    subst hs
    exact ⟨httl, by
      simp [ttlMillisOrDefault_of_ne_zero b.ttl (VALID_TTL_ne_zero b.ttl httl)]⟩

/-- C6 witness: a ttl of 7 seconds is not in the allow-list and is
rejected by the `GET /api/encrypt` route. -/
theorem c6_ttl_allowlist_and_expiry_witness :
    (encryptSecretGet ⟨100, true⟩ cexCrypto "K" "sid" "http://h" 0
        { encBodyOk with ttl := 7 }).isOk = false :=
  (c6_ttl_allowlist_and_expiry ⟨100, true⟩ cexCrypto "K" "sid" "http://h" 0
    { encBodyOk with ttl := 7 }).1 (by decide)

/-! ## Claim C10: the two embedded `POST /api/password/generate` versions -/

/-- C10 is false: on the all-defaults request under an instance with
`enableBurnAfterTime` disabled, the first version admits the creation
while the second rejects it — the two versions do not make the same
accept/reject decision. -/
theorem c10_counterexample :
    (postGenerateV1 cexCrypto "K" "gp" "sid" "http://h" 0 genBodyDefaults).isOk = true ∧
      (postGenerateV2 ⟨999, false⟩ cexCrypto "K" "gp" "sid" "http://h" 0
          genBodyDefaults).isOk = false := by
  exact ⟨by rfl, by rfl⟩

/-- C10 amended: the two versions differ in exactly these admitted
behaviours — the second rejects any request with `preventBurn = false`
whenever `enableBurnAfterTime` is off, while on success the first always
returns the plaintext password and stores `preventBurn = false`
(it never writes the column), and the second returns the password only
when `showPassword` is set and stores the coerced `preventBurn`. -/
theorem c10_amended_version_differences :
    (∀ (cfg : SecretConfig) (crypto : CryptoOps) (key gp sid base : String) (now : Nat)
        (b : GenerateBody), cfg.enableBurnAfterTime = false → b.preventBurn = false →
          (postGenerateV2 cfg crypto key gp sid base now b).isOk = false) ∧
      (∀ (crypto : CryptoOps) (key gp sid base : String) (now : Nat) (b : GenerateBody)
          (s : CreatedSecret) (r : ApiResponse),
          postGenerateV1 crypto key gp sid base now b = .ok (s, r) →
            r.password = some gp ∧ s.preventBurn = false) ∧
      (∀ (cfg : SecretConfig) (crypto : CryptoOps) (key gp sid base : String) (now : Nat)
          (b : GenerateBody) (s : CreatedSecret) (r : ApiResponse),
          postGenerateV2 cfg crypto key gp sid base now b = .ok (s, r) →
            r.password = (if b.showPassword then some gp else none) ∧
            s.preventBurn = finalPreventBurn cfg b.preventBurn) := by
  refine ⟨?_, ?_, ?_⟩
  · intro cfg crypto key gp sid base now b hcfg hpb
    exact postGenerateV2_burnOff_rejects cfg crypto key gp sid base now b hcfg hpb
  · intro crypto key gp sid base now b s r h
    obtain ⟨-, hs, hr⟩ := postGenerateV1_ok_inv crypto key gp sid base now b s r h
    subst hs; subst hr; exact ⟨rfl, rfl⟩
  · intro cfg crypto key gp sid base now b s r h
    obtain ⟨-, -, -, hs, hr⟩ := postGenerateV2_ok_inv cfg crypto key gp sid base now b s r h
    subst hs; subst hr; exact ⟨rfl, rfl⟩

/-- C10 witness: the amended theorem applied at concrete inputs. -/
theorem c10_amended_version_differences_witness :
    (postGenerateV2 ⟨999, false⟩ cexCrypto "Kw" "gpw" "sidw" "http://h" 9
        genBodyDefaults).isOk = false :=
  c10_amended_version_differences.1 ⟨999, false⟩ cexCrypto "Kw" "gpw" "sidw" "http://h" 9
    genBodyDefaults rfl rfl

end Hemmelig
